import Mathlib

/-!
Verification development for the SE3 manifold distance metric
(`ManifoldMetric<variables::SE3<TScalar>>` in `hyper::metrics`).

The metric fuses the three Lie-group primitives `gInv`, `gPlus`, `gLog`
(inverse, composition, logarithmic map) via the chain rule into a single
`Distance` computation with a request-driven four-way path selector.
The primitives themselves live outside this repository's sources; they are
modelled here from the specification (section 4.1): each primitive returns
its principal value and, only when a derivative destination is supplied,
additionally computes a 6x6 Jacobian parameterized by the `global` and
`coupled` convention flags.  The principal values do not depend on the
convention flags, which parameterize only the derivatives.

Scalars are modelled by the rationals, so that all group arithmetic is
exact and executable.
-/

/-- Modelled from the spec: a 3-dimensional translation vector with exact
rational coordinates (the dense numeric primitives are external). -/
structure V3 where
  x : ℚ
  y : ℚ
  z : ℚ
deriving DecidableEq

/-- Componentwise addition of translation vectors. -/
def V3.add (a b : V3) : V3 := ⟨a.x + b.x, a.y + b.y, a.z + b.z⟩

/-- Componentwise negation of a translation vector. -/
def V3.neg (a : V3) : V3 := ⟨-a.x, -a.y, -a.z⟩

/-- The zero translation vector. -/
def V3.zero : V3 := ⟨0, 0, 0⟩

/-- Modelled from the spec: a unit-norm rotation representation (quaternion),
contributing four of the seven pose parameters. -/
structure Quat where
  w : ℚ
  x : ℚ
  y : ℚ
  z : ℚ
deriving DecidableEq

/-- Hamilton product of two quaternions. -/
def Quat.mul (a b : Quat) : Quat :=
  ⟨a.w * b.w - a.x * b.x - a.y * b.y - a.z * b.z,
   a.w * b.x + a.x * b.w + a.y * b.z - a.z * b.y,
   a.w * b.y - a.x * b.z + a.y * b.w + a.z * b.x,
   a.w * b.z + a.x * b.y - a.y * b.x + a.z * b.w⟩

/-- Quaternion conjugate. -/
def Quat.conj (a : Quat) : Quat := ⟨a.w, -a.x, -a.y, -a.z⟩

/-- The identity quaternion. -/
def Quat.one : Quat := ⟨1, 0, 0, 0⟩

/-- Squared norm of a quaternion. -/
def Quat.normSq (a : Quat) : ℚ := a.w * a.w + a.x * a.x + a.y * a.y + a.z * a.z

/-- Rotation of a vector by a quaternion: the vector part of q * (0, v) * conj q. -/
def Quat.rotate (q : Quat) (v : V3) : V3 :=
  let u := (q.mul ⟨0, v.x, v.y, v.z⟩).mul q.conj
  ⟨u.x, u.y, u.z⟩

/-- Modelled from the spec: a pose, an element of SE3, stored as a fixed-size
parameter block of a translation plus a unit-norm rotation representation
(seven parameters in total, matching `Input::kNumParameters`). -/
structure SE3 where
  translation : V3
  q : Quat
deriving DecidableEq

/-- Parameter count of a pose: three translation plus four rotation parameters. -/
def SE3.kNumParameters : Nat := 7

/-- Validity precondition on poses: the rotation representation has unit norm. -/
def SE3.valid (p : SE3) : Prop := p.q.normSq = 1

instance (p : SE3) : Decidable p.valid := by
  unfold SE3.valid; infer_instance

/-- The identity pose: zero translation and identity rotation. -/
def SE3.identity : SE3 := ⟨V3.zero, Quat.one⟩

/-- Modelled from the spec: a tangent vector — a fixed 6-dimensional vector,
three rotational plus three translational components (`Output::kNumParameters`). -/
structure Tangent where
  angular : V3
  linear : V3
deriving DecidableEq

/-- Parameter count of a tangent vector. -/
def Tangent.kNumParameters : Nat := 6

/-- The zero tangent vector. -/
def Tangent.zero : Tangent := ⟨V3.zero, V3.zero⟩

/-- A Jacobian is a dense 6x6 matrix (`JacobianNM<Output>`). -/
abbrev Jacobian : Type := Matrix (Fin 6) (Fin 6) ℚ

/-- Modelled from the spec (section 4.1, external contract): the Lie-group
primitives `gInv`, `gPlus`, `gLog` on SE3, each producing a principal value
and, when requested, a derivative matrix parameterized by the `global` and
`coupled` convention flags.  The principal values are independent of the
flags, which select only among derivative conventions.  `kGlobal` and
`kCoupled` are the process-wide default convention constants used whenever
a caller does not override the convention explicitly. -/
structure GroupPrims where
  gInv : SE3 → SE3
  gInvJ : SE3 → Bool → Bool → Jacobian
  gPlus : SE3 → SE3 → SE3
  gPlusJ1 : SE3 → SE3 → Bool → Bool → Jacobian
  gPlusJ2 : SE3 → SE3 → Bool → Bool → Jacobian
  gLog : SE3 → Tangent
  gLogJ : SE3 → Bool → Bool → Jacobian
  kGlobal : Bool
  kCoupled : Bool

/-- One primitive invocation in a distance evaluation, recording the
convention flags it received and which of its derivatives were requested
(a `false` request models a null derivative destination, whose derivative
is skipped entirely per the performance contract). -/
inductive PrimCall where
  | callInv (global coupled : Bool) (withJ : Bool)
  | callPlus (global coupled : Bool) (withJ1 withJ2 : Bool)
  | callLog (global coupled : Bool) (withJ : Bool)
deriving DecidableEq

/-- The convention flag pair a primitive call received. -/
def PrimCall.flags : PrimCall → Bool × Bool
  | .callInv g c _ => (g, c)
  | .callPlus g c _ _ => (g, c)
  | .callLog g c _ => (g, c)

/-- Number of derivative computations a primitive call performed. -/
def PrimCall.derivCount : PrimCall → Nat
  | .callInv _ _ j => cond j 1 0
  | .callPlus _ _ j1 j2 => cond j1 1 0 + cond j2 1 0
  | .callLog _ _ j => cond j 1 0

/-- Result of one distance evaluation: the tangent-vector output, the two
optional Jacobians (present exactly when their destination buffer was
supplied), and the trace of primitive invocations performed. -/
structure DistanceResult where
  tangent : Tangent
  jLhs : Option Jacobian
  jRhs : Option Jacobian
  calls : List PrimCall
deriving DecidableEq

/-- The raw-buffer stateless `Distance` entry point
(`ManifoldMetric<SE3>::Distance`, pointer overload).  `wantJLhs` and
`wantJRhs` model the non-nullness of the `J_lhs` and `J_rhs` destination
pointers.  The four computation paths mirror the source's branching: both
Jacobians, `J_lhs` only, `J_rhs` only, or the derivative-free chain, the
last invoking the primitives with the process-wide default convention
(their defaulted arguments). -/
def Distance (P : GroupPrims) (lhs rhs : SE3) (wantJLhs wantJRhs : Bool)
    (global coupled : Bool) : DistanceResult :=
  if wantJLhs || wantJRhs then
    if wantJLhs && wantJRhs then
      let J_ir_r := P.gInvJ rhs global coupled
      let i_rhs := P.gInv rhs
      let J_p_l := P.gPlusJ1 lhs i_rhs global coupled
      let J_p_ir := P.gPlusJ2 lhs i_rhs global coupled
      let lhs_plus_i_rhs := P.gPlus lhs i_rhs
      let J_t_p := P.gLogJ lhs_plus_i_rhs global coupled
      { tangent := P.gLog lhs_plus_i_rhs
        jLhs := some (J_t_p * J_p_l)
        jRhs := some (J_t_p * (J_p_ir * J_ir_r))
        calls := [.callInv global coupled true, .callPlus global coupled true true,
                  .callLog global coupled true] }
    else if wantJLhs then
      let i_rhs := P.gInv rhs
      let J_p_l := P.gPlusJ1 lhs i_rhs global coupled
      let lhs_plus_i_rhs := P.gPlus lhs i_rhs
      let J_t_p := P.gLogJ lhs_plus_i_rhs global coupled
      { tangent := P.gLog lhs_plus_i_rhs
        jLhs := some (J_t_p * J_p_l)
        jRhs := none
        calls := [.callInv global coupled false, .callPlus global coupled true false,
                  .callLog global coupled true] }
    else
      let J_ir_r := P.gInvJ rhs global coupled
      let i_rhs := P.gInv rhs
      let J_p_ir := P.gPlusJ2 lhs i_rhs global coupled
      let lhs_plus_i_rhs := P.gPlus lhs i_rhs
      let J_t_p := P.gLogJ lhs_plus_i_rhs global coupled
      { tangent := P.gLog lhs_plus_i_rhs
        jLhs := none
        jRhs := some (J_t_p * (J_p_ir * J_ir_r))
        calls := [.callInv global coupled true, .callPlus global coupled false true,
                  .callLog global coupled true] }
  else
    { tangent := P.gLog (P.gPlus lhs (P.gInv rhs))
      jLhs := none
      jRhs := none
      calls := [.callInv P.kGlobal P.kCoupled false,
                .callPlus P.kGlobal P.kCoupled false false,
                .callLog P.kGlobal P.kCoupled false] }

/-- The Eigen-reference stateless `Distance` overload, which allocates the
output tangent, forwards to the raw-buffer overload on the same data, and
returns the tangent by value. -/
def DistanceRef (P : GroupPrims) (lhs rhs : SE3) (wantJLhs wantJRhs : Bool)
    (global coupled : Bool) : DistanceResult :=
  Distance P lhs rhs wantJLhs wantJRhs global coupled

/-- The metric class `ManifoldMetric<SE3>`: its only state is the two
convention flags fixed at construction. -/
structure ManifoldMetric where
  global_ : Bool
  coupled_ : Bool

/-- Fixed input size constant `kInputSize = Input::kNumParameters`. -/
def ManifoldMetric.kInputSize : Nat := SE3.kNumParameters

/-- Fixed output size constant `kOutputSize = Output::kNumParameters`. -/
def ManifoldMetric.kOutputSize : Nat := Tangent.kNumParameters

/-- Member `inputSize()`: reports the pose parameter count. -/
def ManifoldMetric.inputSize (_ : ManifoldMetric) : Nat := ManifoldMetric.kInputSize

/-- Member `outputSize()`: reports the tangent dimension. -/
def ManifoldMetric.outputSize (_ : ManifoldMetric) : Nat := ManifoldMetric.kOutputSize

/-- The instance-bound raw-buffer `distance` entry point: forwards to the
stateless `Distance` using the instance's stored flags. -/
def ManifoldMetric.distance (m : ManifoldMetric) (P : GroupPrims) (lhs rhs : SE3)
    (wantJLhs wantJRhs : Bool) : DistanceResult :=
  Distance P lhs rhs wantJLhs wantJRhs m.global_ m.coupled_

/-- The instance-bound Eigen-reference `distance` entry point: forwards to the
stateless reference overload using the instance's stored flags. -/
def ManifoldMetric.distanceRef (m : ManifoldMetric) (P : GroupPrims) (lhs rhs : SE3)
    (wantJLhs wantJRhs : Bool) : DistanceResult :=
  DistanceRef P lhs rhs wantJLhs wantJRhs m.global_ m.coupled_

/-- Modelled from the spec: the SE3 group composition, `gPlus` — the
rotation parts multiply and the second translation is rotated into the
first frame and added. -/
def gPlusSE3 (a b : SE3) : SE3 :=
  ⟨a.translation.add (a.q.rotate b.translation), a.q.mul b.q⟩

/-- Modelled from the spec: the SE3 group inverse, `gInv` — the conjugate
rotation together with the negated, back-rotated translation. -/
def gInvSE3 (p : SE3) : SE3 :=
  ⟨(p.q.conj.rotate p.translation).neg, p.q.conj⟩

/-- Modelled from the spec: the SE3 logarithmic map, `gLog`, mapping a pose
to its tangent-space representation relative to the group identity.  On a
pose whose rotation is the identity the map is exact: zero angular part and
the translation itself as linear part (the only poses at which the spec's
properties evaluate it over exact rationals; for a non-identity rotation
the true value is transcendental and not representable here, and the map
is left at zero). -/
def gLogSE3 (p : SE3) : Tangent :=
  if p.q = Quat.one then ⟨V3.zero, p.translation⟩ else Tangent.zero

/-- Modelled from the spec: a concrete primitive bundle instantiating the
external contract with the exact rational SE3 operations; the derivative
matrices, whose formulas are external to this module and unused by its
value-level properties, are instantiated by the identity matrix. -/
def concretePrims : GroupPrims where
  gInv := gInvSE3
  gInvJ := fun _ _ _ => (1 : Jacobian)
  gPlus := gPlusSE3
  gPlusJ1 := fun _ _ _ _ => (1 : Jacobian)
  gPlusJ2 := fun _ _ _ _ => (1 : Jacobian)
  gLog := gLogSE3
  gLogJ := fun _ _ _ => (1 : Jacobian)
  kGlobal := true
  kCoupled := false

/-- Helper pose for witnesses: a nontrivial valid pose with a non-identity
unit-norm rotation. -/
def examplePose : SE3 := ⟨⟨1, 2, 3⟩, ⟨3/5, 4/5, 0, 0⟩⟩

/-- Second pose of the spec's concrete scenario: a pure translation by
(1, 0, 0) with identity rotation. -/
def shiftedPose : SE3 := ⟨⟨1, 0, 0⟩, Quat.one⟩

/-- Helper: on every computation path, the tangent output of `Distance` is
the logarithm of the composition of `lhs` with the inverse of `rhs`. -/
theorem tangent_eq_log_chain (P : GroupPrims) (lhs rhs : SE3)
    (wantJLhs wantJRhs global coupled : Bool) :
    (Distance P lhs rhs wantJLhs wantJRhs global coupled).tangent
      = P.gLog (P.gPlus lhs (P.gInv rhs)) := by
  cases wantJLhs <;> cases wantJRhs <;> rfl

/-- C1: for every pair of poses and every combination of requested Jacobians
and convention flags, the tangent vector written by `Distance` equals
`log(lhs ∘ inverse(rhs))`; and in the neither-requested case every primitive
call in the chain performs zero derivative computations. -/
theorem distance_tangent_eq_log_comp_inv (P : GroupPrims) (lhs rhs : SE3)
    (wantJLhs wantJRhs global coupled : Bool) :
    (Distance P lhs rhs wantJLhs wantJRhs global coupled).tangent
      = P.gLog (P.gPlus lhs (P.gInv rhs))
    ∧ ∀ e ∈ (Distance P lhs rhs false false global coupled).calls,
        e.derivCount = 0 := by
  refine ⟨tangent_eq_log_chain P lhs rhs wantJLhs wantJRhs global coupled, ?_⟩
  intro e he
  simp only [Distance, Bool.or_self, Bool.false_eq_true, if_false,
    List.mem_cons, List.not_mem_nil, or_false] at he
  rcases he with h | h | h <;> subst h <;> rfl

/-- C2: the returned tangent vector is identical across the four computation
paths, and each Jacobian computed by a single-Jacobian path is identical to
the one computed by the both-requested path. -/
theorem distance_path_equivalence (P : GroupPrims) (lhs rhs : SE3)
    (global coupled : Bool) :
    ((Distance P lhs rhs false false global coupled).tangent
        = (Distance P lhs rhs true true global coupled).tangent
      ∧ (Distance P lhs rhs true false global coupled).tangent
        = (Distance P lhs rhs true true global coupled).tangent
      ∧ (Distance P lhs rhs false true global coupled).tangent
        = (Distance P lhs rhs true true global coupled).tangent)
    ∧ (Distance P lhs rhs true false global coupled).jLhs
        = (Distance P lhs rhs true true global coupled).jLhs
    ∧ (Distance P lhs rhs false true global coupled).jRhs
        = (Distance P lhs rhs true true global coupled).jRhs :=
  ⟨⟨rfl, rfl, rfl⟩, rfl, rfl⟩

/-- C3: when only `J_lhs` is requested, the chain computes `inverse(rhs)`
without its derivative, `compose` with the derivative w.r.t. its first
argument only, `log` with its derivative, and writes
`J_lhs = J_log * J_compose_wrt_lhs`. -/
theorem distance_jlhs_only_path (P : GroupPrims) (lhs rhs : SE3)
    (global coupled : Bool) :
    (Distance P lhs rhs true false global coupled).calls
      = [.callInv global coupled false, .callPlus global coupled true false,
         .callLog global coupled true]
    ∧ (Distance P lhs rhs true false global coupled).jLhs
      = some (P.gLogJ (P.gPlus lhs (P.gInv rhs)) global coupled
          * P.gPlusJ1 lhs (P.gInv rhs) global coupled) :=
  ⟨rfl, rfl⟩

/-- C4: when only `J_rhs` is requested, the chain computes `inverse(rhs)`
with its derivative, `compose` with the derivative w.r.t. its second
argument only, `log` with its derivative, and writes
`J_rhs = J_log * (J_compose_wrt_invRhs * J_inverse)`. -/
theorem distance_jrhs_only_path (P : GroupPrims) (lhs rhs : SE3)
    (global coupled : Bool) :
    (Distance P lhs rhs false true global coupled).calls
      = [.callInv global coupled true, .callPlus global coupled false true,
         .callLog global coupled true]
    ∧ (Distance P lhs rhs false true global coupled).jRhs
      = some (P.gLogJ (P.gPlus lhs (P.gInv rhs)) global coupled
          * (P.gPlusJ2 lhs (P.gInv rhs) global coupled
              * P.gInvJ rhs global coupled)) :=
  ⟨rfl, rfl⟩

/-- C5: for every valid pose whose primitives satisfy the spec's group
contract — composing a pose with its inverse yields the identity, and the
logarithm of the identity is the zero tangent vector — the distance of the
pose to itself is the zero tangent vector, under every combination of
requested Jacobians and convention flags. -/
theorem distance_self_zero (P : GroupPrims) (p : SE3)
    (wantJLhs wantJRhs global coupled : Bool) (hvalid : p.valid)
    (hinv : P.gPlus p (P.gInv p) = SE3.identity)
    (hlog : P.gLog SE3.identity = Tangent.zero) :
    (Distance P p p wantJLhs wantJRhs global coupled).tangent = Tangent.zero := by
  rw [tangent_eq_log_chain, hinv, hlog]

/-- Witness for C5 at a concrete valid pose with a non-identity rotation,
using the exact rational primitive bundle. -/
theorem distance_self_zero_witness :
    (Distance concretePrims examplePose examplePose true true true true).tangent
      = Tangent.zero :=
  distance_self_zero concretePrims examplePose true true true true
    (by norm_num [SE3.valid, examplePose, Quat.normSq])
    (by norm_num [concretePrims, gPlusSE3, gInvSE3, examplePose, SE3.identity,
      Quat.mul, Quat.conj, Quat.rotate, Quat.one, V3.add, V3.neg, V3.zero])
    (by simp [concretePrims, gLogSE3, SE3.identity, Tangent.zero])

/-- C6: within any single distance evaluation, all three chained primitive
calls receive the same pair of convention flags. -/
theorem distance_consistent_flags (P : GroupPrims) (lhs rhs : SE3)
    (wantJLhs wantJRhs global coupled : Bool) :
    ∃ fl, (Distance P lhs rhs wantJLhs wantJRhs global coupled).calls.map
        PrimCall.flags = [fl, fl, fl] := by
  cases wantJLhs <;> cases wantJRhs
  · exact ⟨(P.kGlobal, P.kCoupled), rfl⟩
  · exact ⟨(global, coupled), rfl⟩
  · exact ⟨(global, coupled), rfl⟩
  · exact ⟨(global, coupled), rfl⟩

/-- C7: an instance constructed with flags (g, c) produces, via both of its
instance-bound distance entry points, the very result of the stateless
entry point called explicitly with (g, c) on the same inputs. -/
theorem instance_matches_stateless (g c : Bool) (P : GroupPrims) (lhs rhs : SE3)
    (wantJLhs wantJRhs : Bool) :
    (ManifoldMetric.mk g c).distance P lhs rhs wantJLhs wantJRhs
      = Distance P lhs rhs wantJLhs wantJRhs g c
    ∧ (ManifoldMetric.mk g c).distanceRef P lhs rhs wantJLhs wantJRhs
      = Distance P lhs rhs wantJLhs wantJRhs g c :=
  ⟨rfl, rfl⟩

/-- C8: with `lhs` the identity pose and `rhs` a pose translated by
(1, 0, 0) with identity rotation, the distance is the tangent vector with
zero angular part and linear part (-1, 0, 0), under every combination of
requested Jacobians and convention flags (in particular both values of
`coupled`). -/
theorem distance_concrete_scenario :
    ∀ wantJLhs wantJRhs global coupled : Bool,
      (Distance concretePrims SE3.identity shiftedPose
          wantJLhs wantJRhs global coupled).tangent
        = ⟨V3.zero, ⟨-1, 0, 0⟩⟩ := by
  intro wantJLhs wantJRhs global coupled
  rw [tangent_eq_log_chain]
  norm_num [concretePrims, gLogSE3, gPlusSE3, gInvSE3, shiftedPose, SE3.identity,
    Quat.mul, Quat.conj, Quat.rotate, Quat.one, V3.add, V3.neg, V3.zero, Tangent.zero]

/-- C9: every metric instance reports `outputSize() = 6`, the tangent
dimension, and `inputSize() = 7`, the pose parameter count of the
translation-plus-quaternion representation. -/
theorem metric_sizes (m : ManifoldMetric) :
    m.outputSize = 6 ∧ m.inputSize = 7 :=
  ⟨rfl, rfl⟩

/-- C10: the stateless by-value `Distance` overload produces exactly the
same tangent vector and Jacobians as the raw-buffer stateless overload on
the same pose data, Jacobian requests, and flags. -/
theorem ref_overload_matches_pointer_overload (P : GroupPrims) (lhs rhs : SE3)
    (wantJLhs wantJRhs global coupled : Bool) :
    DistanceRef P lhs rhs wantJLhs wantJRhs global coupled
      = Distance P lhs rhs wantJLhs wantJRhs global coupled :=
  rfl
